import Mathlib

/-!
Shallow embedding of the chat-app backend (saidatta64/chat-app).

The embedding translates the server's domain layer into pure Lean functions:

* `src/server/src/services/user.service.ts`  — `userExists`
* `src/server/src/services/chat.service.ts`  — `createChatRequest`, `acceptChat`,
  `getChatById`, `validateChatParticipants`, `getChatMessages`, `createMessage`
* `src/server/src/websocket/message.handler.ts` — `handleMessageSend`

Mongoose's store is modelled as an in-memory `DB` record; `Date.now` and the
store's id generation are passed in explicitly (`now : Nat`, `freshId : String`).
A thrown `Error` becomes the `Except Err` error case; every operation returns
the (possibly updated) database paired with its result, and an error always
returns the input database unchanged, mirroring the source where every `throw`
happens before any store write.
-/

/-- Model of JavaScript `String.prototype.trim`: strips leading and trailing
whitespace. -/
def trimString (s : String) : String :=
  ⟨((s.data.dropWhile Char.isWhitespace).reverse.dropWhile Char.isWhitespace).reverse⟩

/-- Hexadecimal digit test, used by the ObjectId well-formedness check. -/
def isHexChar (c : Char) : Bool :=
  c.isDigit || (('a' ≤ c) && (c ≤ 'f')) || (('A' ≤ c) && (c ≤ 'F'))

/-- Embedding of `Types.ObjectId.isValid` from mongoose for string inputs: a
string is a well-formed id when it is 12 characters long (12-byte form) or is a
24-character hexadecimal string. -/
def isValidObjectId (s : String) : Bool :=
  s.length == 12 || (s.length == 24 && s.data.all isHexChar)

/-- Chat status enumeration from `src/server/src/models/Chat.ts`. -/
inductive ChatStatus where
  | pending
  | accepted
  | rejected
deriving DecidableEq, Repr

/-- String form of a status, as interpolated into error messages. -/
def statusToString : ChatStatus → String
  | .pending => "pending"
  | .accepted => "accepted"
  | .rejected => "rejected"

/-- Stored chat record (`IChat` / the `Chat` mongoose model). -/
structure ChatRec where
  id : String
  participants : List String
  status : ChatStatus
  initiatedBy : String
  createdAt : Nat
  acceptedAt : Option Nat
deriving DecidableEq, Repr

/-- Stored message record (`IMessage` / the `Message` mongoose model).
The `deleted` marker is the soft-deletion flag used by `deleteMessage`
(see that definition's comment). -/
structure MessageRec where
  id : String
  chatId : String
  senderId : String
  content : String
  replyTo : Option String
  createdAt : Nat
  readAt : Option Nat
  deleted : Bool
deriving DecidableEq, Repr

/-- The persistent store: users (by id), chats and messages, in insertion
order. -/
structure DB where
  users : List String
  chats : List ChatRec
  messages : List MessageRec
deriving DecidableEq, Repr

/-- Error taxonomy of the spec (§7); the source throws plain `Error`s whose
messages are kept verbatim, and the constructors record the category each
message maps to. -/
inductive Err where
  | invalidArgument (msg : String)
  | notFound (msg : String)
  | forbidden (msg : String)
  | conflict (msg : String)
deriving DecidableEq, Repr

/-- Response shape `ChatResponse` produced by `toChatResponse`. -/
structure ChatResponse where
  id : String
  participants : List String
  status : ChatStatus
  initiatedBy : String
  createdAt : Nat
  acceptedAt : Option Nat
deriving DecidableEq, Repr

/-- Response shape `MessageResponse` produced by `toMessageResponse`. -/
structure MessageResponse where
  id : String
  chatId : String
  senderId : String
  content : String
  createdAt : Nat
  readAt : Option Nat
deriving DecidableEq, Repr

/-- Embedding of `UserService.userExists`: `false` on a malformed id,
otherwise a store lookup. -/
def userExists (db : DB) (userId : String) : Bool :=
  if !(isValidObjectId userId) then false
  else db.users.contains userId

/-- Embedding of `ChatService.toChatResponse`. -/
def toChatResponse (c : ChatRec) : ChatResponse :=
  { id := c.id
    participants := c.participants
    status := c.status
    initiatedBy := c.initiatedBy
    createdAt := c.createdAt
    acceptedAt := c.acceptedAt }

/-- Embedding of `ChatService.toMessageResponse`. -/
def toMessageResponse (m : MessageRec) : MessageResponse :=
  { id := m.id
    chatId := m.chatId
    senderId := m.senderId
    content := m.content
    createdAt := m.createdAt
    readAt := m.readAt }

/-- The `$all [a, b]` participant filter of the `Chat.findOne` call in
`createChatRequest`: the chat's participant array contains both ids. -/
def chatHasPair (c : ChatRec) (a b : String) : Bool :=
  c.participants.contains a && c.participants.contains b

/-- `Chat.findOne({participants: {$all: [a,b]}})`: first stored chat whose
participants contain both ids. -/
def findChatByPair (db : DB) (a b : String) : Option ChatRec :=
  db.chats.find? (fun c => chatHasPair c a b)

/-- `Chat.findById`: first stored chat with the given id. -/
def findChat (db : DB) (chatId : String) : Option ChatRec :=
  db.chats.find? (fun c => c.id == chatId)

/-- `Message.findById`-style lookup: first stored message with the given id. -/
def findMessage (db : DB) (messageId : String) : Option MessageRec :=
  db.messages.find? (fun m => m.id == messageId)

/-- Embedding of `ChatService.getChatById`: `none` on a malformed id,
otherwise `Chat.findById`. -/
def getChatById (db : DB) (chatId : String) : Option ChatRec :=
  if !(isValidObjectId chatId) then none
  else findChat db chatId

/-- Embedding of `ChatService.createChatRequest`. `now` models `Date.now`,
`freshId` the id the store would assign to a newly saved chat. The
duplicate-key recovery branch (mongo error 11000) is unreachable in this
sequential model because the `findOne` check precedes the save. -/
def createChatRequest (db : DB) (now : Nat) (freshId : String)
    (fromUserId toUserId : String) : DB × Except Err ChatResponse :=
  if !(isValidObjectId fromUserId) || !(isValidObjectId toUserId) then
    (db, .error (.invalidArgument "Invalid user ID"))
  else if fromUserId == toUserId then
    (db, .error (.invalidArgument "Cannot create chat with yourself"))
  else if !(userExists db fromUserId) || !(userExists db toUserId) then
    (db, .error (.notFound "One or both users do not exist"))
  else
    match findChatByPair db fromUserId toUserId with
    | some existingChat => (db, .ok (toChatResponse existingChat))
    | none =>
      let chat : ChatRec :=
        { id := freshId
          participants := [fromUserId, toUserId]
          status := .pending
          initiatedBy := fromUserId
          createdAt := now
          acceptedAt := none }
      ({ db with chats := db.chats ++ [chat] }, .ok (toChatResponse chat))

/-- Embedding of `ChatService.acceptChat`. On success the found chat is
updated in place (mongoose `chat.save()` rewrites the document with that id). -/
def acceptChat (db : DB) (now : Nat) (chatId userId : String) :
    DB × Except Err ChatResponse :=
  if !(isValidObjectId chatId) || !(isValidObjectId userId) then
    (db, .error (.invalidArgument "Invalid chat ID or user ID"))
  else
    match findChat db chatId with
    | none => (db, .error (.notFound "Chat not found"))
    | some chat =>
      if !(chat.participants.contains userId) then
        (db, .error (.forbidden "User is not a participant in this chat"))
      else if chat.initiatedBy == userId then
        (db, .error (.forbidden "Cannot accept your own chat request"))
      else if chat.status != .pending then
        (db, .error (.conflict ("Chat is already " ++ statusToString chat.status)))
      else
        let updated := { chat with status := .accepted, acceptedAt := some now }
        ({ db with chats := db.chats.map (fun c => if c.id == chat.id then updated else c) },
         .ok (toChatResponse updated))

/-- Embedding of `ChatService.validateChatParticipants` (pure: no writes, so
only the result is returned). -/
def validateChatParticipants (db : DB) (chatId userId : String) :
    Except Err ChatRec :=
  if !(isValidObjectId chatId) || !(isValidObjectId userId) then
    .error (.invalidArgument "Invalid chat ID or user ID")
  else
    match findChat db chatId with
    | none => .error (.notFound "Chat not found")
    | some chat =>
      if !(chat.participants.contains userId) then
        .error (.forbidden "User is not a participant in this chat")
      else
        .ok chat

/-- Stable insertion of a message into a list that is sorted by ascending
creation time; an equal-timestamp element already in the list stays first. -/
def insertByTime (m : MessageRec) : List MessageRec → List MessageRec
  | [] => [m]
  | x :: xs => if m.createdAt ≤ x.createdAt then m :: x :: xs else x :: insertByTime m xs

/-- Stable sort of messages by ascending creation time (ties keep insertion
order). The store's `.sort createdAt descending` in `getChatMessages` is the
reverse of this list; per spec §5 the store orders equal timestamps by
insertion. -/
def sortByTime : List MessageRec → List MessageRec
  | [] => []
  | x :: xs => insertByTime x (sortByTime xs)

/-- Pagination query (`PaginationQuery`): absent fields are `none`; numbers
are integers as the HTTP layer parses them. -/
structure PaginationQuery where
  page : Option Int := none
  limit : Option Int := none
deriving DecidableEq, Repr

/-- Effective page: `Math.max(1, query.page || 1)` (JS `||` treats 0 as
falsy). Returned as a `Nat` since the result is at least 1. -/
def effPage (q : PaginationQuery) : Nat :=
  (max 1 (match q.page with | none => (1 : Int) | some p => if p = 0 then 1 else p)).toNat

/-- Effective limit: `Math.min(100, Math.max(1, query.limit || 50))`. -/
def effLimit (q : PaginationQuery) : Nat :=
  (min 100 (max 1 (match q.limit with | none => (50 : Int) | some l => if l = 0 then 50 else l))).toNat

/-- Paginated response shape (`PaginatedResponse`). -/
structure Paginated (α : Type) where
  data : List α
  page : Nat
  limit : Nat
  total : Nat
  totalPages : Nat
deriving DecidableEq, Repr

/-- Nat rendering of `Math.ceil(total / limit)` for a positive `limit`. -/
def ceilDivNat (total limit : Nat) : Nat :=
  (total + limit - 1) / limit

/-- Embedding of `ChatService.getChatMessages`: fetches the page of the
chat's messages newest-first (descending creation time, equal timestamps in
insertion order, i.e. the reverse of `sortByTime`), applies skip/limit, then
reverses the page so callers see oldest-first. -/
def getChatMessages (db : DB) (chatId : String) (q : PaginationQuery) :
    DB × Except Err (Paginated MessageResponse) :=
  if !(isValidObjectId chatId) then
    (db, .error (.invalidArgument "Invalid chat ID"))
  else
    let page := effPage q
    let limit := effLimit q
    let skip := (page - 1) * limit
    match findChat db chatId with
    | none => (db, .error (.notFound "Chat not found"))
    | some _ =>
      let chatMsgs := db.messages.filter (fun m => m.chatId == chatId)
      let newestFirst := (sortByTime chatMsgs).reverse
      let pageMsgs := (newestFirst.drop skip).take limit
      let total := chatMsgs.length
      (db, .ok
        { data := (pageMsgs.map toMessageResponse).reverse
          page := page
          limit := limit
          total := total
          totalPages := ceilDivNat total limit })

/-- Embedding of `ChatService.createMessage`, as called by
`handleMessageSend` with a fourth `replyToId` argument. The id/participant/
status checks and the content trimming follow `chat.service.ts` (the content
length bounds are the `Message` schema's save-time validators). The
`replyToId` branch is Modelled from the spec: the copy of `chat.service.ts`
under the repository's server sources predates the `replyToId` parameter its
caller `message.handler.ts` passes, so per spec §4.2 a given `replyToId` must
name an existing message of the same chat (`NotFound` otherwise) and is
recorded on the created message. -/
def createMessage (db : DB) (now : Nat) (freshId : String)
    (chatId senderId content : String) (replyToId : Option String) :
    DB × Except Err MessageResponse :=
  if !(isValidObjectId chatId) || !(isValidObjectId senderId) then
    (db, .error (.invalidArgument "Invalid chat ID or sender ID"))
  else
    match validateChatParticipants db chatId senderId with
    | .error e => (db, .error e)
    | .ok chat =>
      if chat.status != .accepted then
        (db, .error (.conflict "Cannot send messages to a chat that is not accepted"))
      else
        match replyToId with
        | some rid =>
          match db.messages.find? (fun m => m.id == rid && m.chatId == chatId) with
          | none => (db, .error (.notFound "Reply target message not found in this chat"))
          | some _ => saveMessage db now freshId chatId senderId content (some rid)
        | none => saveMessage db now freshId chatId senderId content none
where
  /-- The `new Message({...})` + `save()` step: trims the content, applies the
  schema's length validators, appends the record. -/
  saveMessage (db : DB) (now : Nat) (freshId chatId senderId content : String)
      (replyTo : Option String) : DB × Except Err MessageResponse :=
    let trimmed := trimString content
    if trimmed.length == 0 then
      (db, .error (.invalidArgument "Message cannot be empty"))
    else if trimmed.length > 5000 then
      (db, .error (.invalidArgument "Message cannot exceed 5000 characters"))
    else
      let msg : MessageRec :=
        { id := freshId
          chatId := chatId
          senderId := senderId
          content := trimmed
          replyTo := replyTo
          createdAt := now
          readAt := none
          deleted := false }
      ({ db with messages := db.messages ++ [msg] }, .ok (toMessageResponse msg))

/-- Result shape of `deleteMessage`. -/
structure DeleteResult where
  success : Bool
  chatId : String
deriving DecidableEq, Repr

/-- Modelled from the spec: `ChatService.deleteMessage` is absent from the
repository's server sources (only its caller `handleMessageDelete` and the
socket event types exist there). Per spec §4.2 it fails with `NotFound` when
no message has the given id, with `Forbidden` when the caller is not the
message's sender, and otherwise soft-deletes the message (sets the `deleted`
marker on the stored record) and returns the owning chat id. -/
def deleteMessage (db : DB) (messageId userId : String) :
    DB × Except Err DeleteResult :=
  match findMessage db messageId with
  | none => (db, .error (.notFound "Message not found"))
  | some m =>
    if m.senderId != userId then
      (db, .error (.forbidden "Only the sender can delete this message"))
    else
      ({ db with messages :=
          db.messages.map (fun x => if x.id == messageId then { x with deleted := true } else x) },
       .ok { success := true, chatId := m.chatId })

/-- Payload of the `MESSAGE_SEND` socket event (`MessageSendData`). -/
structure MessageSendData where
  chatId : String
  content : String
  senderId : String
  replyToId : Option String := none
deriving DecidableEq, Repr

/-- Events a handler pushes to sockets (`ServerToClientEvents`). -/
inductive SocketEvent where
  | messageReceived (message : MessageResponse) (chatId : String)
  | messageDeleted (messageId chatId : String)
  | errorEvent (error : String) (message : String)
deriving DecidableEq, Repr

/-- One `io.to(socketId).emit(...)` (or `socket.emit` for errors): the target
socket id and the event pushed to it. -/
structure Emit where
  target : String
  event : SocketEvent
deriving DecidableEq, Repr

/-- The `onlineUsers` presence map (`Map<userId, socketId>`), as an
association list with at most one relevant (first) entry per user. -/
def lookupOnline (online : List (String × String)) (userId : String) : Option String :=
  (online.find? (fun e => e.1 == userId)).map (fun e => e.2)

/-- Message text of an `Err`, as `error.message` reads it in the handler. -/
def errMessage : Err → String
  | .invalidArgument m => m
  | .notFound m => m
  | .forbidden m => m
  | .conflict m => m

/-- Embedding of `MessageHandler.handleMessageSend`: falsy-field check,
participant validation, status check, `createMessage`, then one
`MESSAGE_RECEIVED` per participant whose presence entry resolves to a socket;
offline participants are skipped. Errors emit a single `ERROR` event to the
sender's socket and leave the store unchanged. -/
def handleMessageSend (db : DB) (now : Nat) (freshId : String)
    (senderSocket : String) (data : MessageSendData)
    (onlineUsers : List (String × String)) : DB × List Emit :=
  if data.chatId == "" || data.content == "" || data.senderId == "" then
    (db, [⟨senderSocket, .errorEvent "Missing required fields"
            "chatId, content, and senderId are required"⟩])
  else
    match validateChatParticipants db data.chatId data.senderId with
    | .error e =>
      (db, [⟨senderSocket, .errorEvent (errMessage e)
              "An error occurred while processing the message"⟩])
    | .ok chat =>
      if chat.status != .accepted then
        (db, [⟨senderSocket, .errorEvent "Chat not accepted"
                "Cannot send messages to a chat that is not accepted"⟩])
      else
        match createMessage db now freshId data.chatId data.senderId
            data.content data.replyToId with
        | (db1, .ok message) =>
          (db1, chat.participants.filterMap (fun userId =>
            (lookupOnline onlineUsers userId).map
              (fun socketId => ⟨socketId, .messageReceived message data.chatId⟩)))
        | (_, .error e) =>
          (db, [⟨senderSocket, .errorEvent (errMessage e)
                  "An error occurred while processing the message"⟩])

/-- Data of one page as a client iterating `GET /:chatId/messages?page=&limit=`
sees it: the `data` field of a successful `getChatMessages` call (empty on
error). -/
def pageData (db : DB) (chatId : String) (pageNum limit : Nat) :
    List MessageResponse :=
  match (getChatMessages db chatId
      { page := some (pageNum : Int), limit := some (limit : Int) }).2 with
  | .ok res => res.data
  | .error _ => []

/-- Concrete example store used to exercise the pagination claims: one
accepted chat holding two messages with creation times 1 and 2. -/
def dbTwoMessages : DB :=
  { users := ["user00000001", "user00000002"]
    chats := [{ id := "chat00000001"
                participants := ["user00000001", "user00000002"]
                status := .accepted
                initiatedBy := "user00000001"
                createdAt := 0
                acceptedAt := some 1 }]
    messages :=
      [{ id := "msg000000001", chatId := "chat00000001",
         senderId := "user00000001", content := "a",
         replyTo := none, createdAt := 1, readAt := none, deleted := false },
       { id := "msg000000002", chatId := "chat00000001",
         senderId := "user00000002", content := "b",
         replyTo := none, createdAt := 2, readAt := none, deleted := false }] }

/-! ### Helper lemmas -/

theorem find?_congr_pred {α : Type} (p q : α → Bool) (h : ∀ a, p a = q a)
    (l : List α) : l.find? p = l.find? q := by
  induction l with
  | nil => rfl
  | cons a l ih => cases hq : q a <;> simp [List.find?_cons, h a, hq, ih]

theorem chatHasPair_comm (c : ChatRec) (a b : String) :
    chatHasPair c a b = chatHasPair c b a := by
  simp [chatHasPair, Bool.and_comm]

theorem findChatByPair_comm (db : DB) (a b : String) :
    findChatByPair db a b = findChatByPair db b a :=
  find?_congr_pred _ _ (fun c => chatHasPair_comm c a b) db.chats

theorem findChat_id_of_some {db : DB} {cid : String} {c : ChatRec}
    (h : findChat db cid = some c) : c.id = cid := by
  have h2 := List.find?_some h
  simpa using h2

theorem find?_id_map_replace (l : List ChatRec) (cid : String) (c c' : ChatRec)
    (h : l.find? (fun x => x.id == cid) = some c) (hid : c'.id = c.id) :
    (l.map (fun x => if x.id == c.id then c' else x)).find? (fun x => x.id == cid)
      = some c' := by
  have hcid : c.id = cid := by simpa using List.find?_some h
  induction l with
  | nil => simp at h
  | cons a l ih =>
    rw [List.find?_cons] at h
    by_cases ha : a.id = cid
    · have hb : (a.id == cid) = true := by simpa using ha
      rw [hb] at h
      have hac : a = c := by simpa using h
      subst hac
      simp [List.find?_cons, hid, hcid, ha]
    · have hb : (a.id == cid) = false := by simpa using ha
      rw [hb] at h
      simp only [] at h
      have hfa : (a.id == c.id) = false := by simp [hcid, ha]
      rw [List.map_cons, List.find?_cons]
      simp only [hfa, Bool.false_eq_true, if_false, hb]
      exact ih h

/-! ### C10 -/

/-- C10: the lookup primitives are total on malformed ids — `getChatById`
returns `none` (not-found) rather than an invalid-argument error, and
`userExists` returns `false`, for every string that is not a well-formed
store id. -/
theorem claim_C10_malformed_id_lookups_total (s : String)
    (h : isValidObjectId s = false) :
    ∀ db : DB, getChatById db s = none ∧ userExists db s = false := by
  intro db
  constructor
  · simp [getChatById, h]
  · simp [userExists, h]

/-- Witness for C10 at the malformed id `"xyz"` and a concrete store. -/
theorem claim_C10_witness :
    getChatById { users := ["user00000001"], chats := [], messages := [] } "xyz" = none ∧
      userExists { users := ["user00000001"], chats := [], messages := [] } "xyz" = false :=
  claim_C10_malformed_id_lookups_total "xyz" (by decide)
    { users := ["user00000001"], chats := [], messages := [] }

/-! ### C3 -/

/-- C3: for every existing chat and the user equal to its `initiatedBy`,
`acceptChat` fails with `Forbidden` whatever the chat's status is; the
initiator check (and the participant check before it) fire before the status
check, so the initiator never gets the `Conflict` error. The store is left
unchanged. -/
theorem claim_C3_accept_by_initiator_forbidden (db : DB) (now : Nat)
    (chatId : String) (c : ChatRec)
    (hv1 : isValidObjectId chatId = true)
    (hv2 : isValidObjectId c.initiatedBy = true)
    (hc : findChat db chatId = some c) :
    ∃ m, acceptChat db now chatId c.initiatedBy = (db, .error (.forbidden m)) := by
  unfold acceptChat
  rw [hc]
  simp only [hv1, hv2, Bool.not_true, Bool.or_self, Bool.false_eq_true, if_false]
  by_cases hp : c.participants.contains c.initiatedBy = true
  · refine ⟨"Cannot accept your own chat request", ?_⟩
    have hm : c.initiatedBy ∈ c.participants := by simpa using hp
    simp [hm]
  · refine ⟨"User is not a participant in this chat", ?_⟩
    have hm : c.initiatedBy ∉ c.participants := by simpa using hp
    simp [hm]

/-- Witness for C3: a concrete rejected chat whose initiator tries to accept
it and is refused with `Forbidden` (not `Conflict`). -/
theorem claim_C3_witness :
    ∃ m, acceptChat
        { users := ["user00000001", "user00000002"],
          chats := [{ id := "chat00000001",
                      participants := ["user00000001", "user00000002"],
                      status := .rejected,
                      initiatedBy := "user00000001",
                      createdAt := 0, acceptedAt := none }],
          messages := [] } 7 "chat00000001" "user00000001" =
      ({ users := ["user00000001", "user00000002"],
         chats := [{ id := "chat00000001",
                     participants := ["user00000001", "user00000002"],
                     status := .rejected,
                     initiatedBy := "user00000001",
                     createdAt := 0, acceptedAt := none }],
         messages := [] }, .error (.forbidden m)) :=
  claim_C3_accept_by_initiator_forbidden _ 7 "chat00000001"
    { id := "chat00000001",
      participants := ["user00000001", "user00000002"],
      status := .rejected,
      initiatedBy := "user00000001",
      createdAt := 0, acceptedAt := none }
    (by decide) (by decide) (by decide)

/-! ### C4 -/

/-- C4: `acceptChat` on an existing non-pending chat, called by a participant
who is not the initiator, fails with `Conflict` whose message carries the
chat's current status, and the store is returned unchanged; moreover (second
conjunct) every successful `acceptChat` whatsoever was performed on a chat
that was `pending`, so no transition out of `accepted` or `rejected` ever
occurs. -/
theorem claim_C4_accept_non_pending_conflict (db : DB) (now : Nat)
    (chatId userId : String) (c : ChatRec)
    (hv1 : isValidObjectId chatId = true)
    (hv2 : isValidObjectId userId = true)
    (hc : findChat db chatId = some c)
    (hp : c.participants.contains userId = true)
    (hni : c.initiatedBy ≠ userId)
    (hs : c.status ≠ .pending) :
    acceptChat db now chatId userId =
      (db, .error (.conflict ("Chat is already " ++ statusToString c.status))) ∧
    ∀ (db' : DB) (now' : Nat) (cid' uid' : String) (db2 : DB) (r : ChatResponse),
      acceptChat db' now' cid' uid' = (db2, .ok r) →
      ∃ c', findChat db' cid' = some c' ∧ c'.status = ChatStatus.pending := by
  constructor
  · unfold acceptChat
    rw [hc]
    have hm : userId ∈ c.participants := by simpa using hp
    simp [hv1, hv2, hm, hni, hs]
  · intro db' now' cid' uid' db2 r h
    unfold acceptChat at h
    split at h
    · simp at h
    · split at h
      · simp at h
      · rename_i chat hf
        split at h
        · simp at h
        · split at h
          · simp at h
          · split at h
            · simp at h
            · rename_i hs'
              refine ⟨chat, hf, ?_⟩
              simpa using hs'

/-- Witness for C4: accepting an already-accepted concrete chat yields the
`Conflict` error mentioning the status, and the success-implies-pending
conjunct is instantiated. -/
theorem claim_C4_witness :
    acceptChat
        { users := ["user00000001", "user00000002"],
          chats := [{ id := "chat00000001",
                      participants := ["user00000001", "user00000002"],
                      status := .accepted,
                      initiatedBy := "user00000001",
                      createdAt := 0, acceptedAt := some 1 }],
          messages := [] } 7 "chat00000001" "user00000002" =
      ({ users := ["user00000001", "user00000002"],
         chats := [{ id := "chat00000001",
                     participants := ["user00000001", "user00000002"],
                     status := .accepted,
                     initiatedBy := "user00000001",
                     createdAt := 0, acceptedAt := some 1 }],
         messages := [] },
       .error (.conflict "Chat is already accepted")) :=
  (claim_C4_accept_non_pending_conflict _ 7 "chat00000001" "user00000002"
    { id := "chat00000001",
      participants := ["user00000001", "user00000002"],
      status := .accepted,
      initiatedBy := "user00000001",
      createdAt := 0, acceptedAt := some 1 }
    (by decide) (by decide) (by decide) (by decide) (by decide) (by decide)).1

/-! ### C9 -/

/-- C9: a successful accept of a pending chat by the non-initiating
participant sets `status := accepted` and `acceptedAt := now`, and leaves
every other field of the chat — participants, initiator, creation time —
unchanged; only the chat with that id is replaced in the store, and users
and messages are untouched. -/
theorem claim_C9_accept_success_frame (db : DB) (now : Nat)
    (chatId userId : String) (c : ChatRec)
    (hv1 : isValidObjectId chatId = true)
    (hv2 : isValidObjectId userId = true)
    (hc : findChat db chatId = some c)
    (hp : userId ∈ c.participants)
    (hni : c.initiatedBy ≠ userId)
    (hs : c.status = .pending) :
    ∃ c' : ChatRec,
      acceptChat db now chatId userId =
        ({ users := db.users
           chats := db.chats.map (fun x => if x.id == c.id then c' else x)
           messages := db.messages },
         .ok (toChatResponse c')) ∧
      c'.status = .accepted ∧ c'.acceptedAt = some now ∧
      c'.id = c.id ∧ c'.participants = c.participants ∧
      c'.initiatedBy = c.initiatedBy ∧ c'.createdAt = c.createdAt := by
  refine ⟨{ c with status := .accepted, acceptedAt := some now },
    ?_, rfl, rfl, rfl, rfl, rfl, rfl⟩
  unfold acceptChat
  rw [hc]
  simp [hv1, hv2, hp, hni, hs]

/-- Witness for C9: the non-initiator accepts a concrete pending chat. -/
theorem claim_C9_witness :
    ∃ c' : ChatRec,
      acceptChat
          { users := ["user00000001", "user00000002"],
            chats := [{ id := "chat00000001",
                        participants := ["user00000001", "user00000002"],
                        status := .pending,
                        initiatedBy := "user00000001",
                        createdAt := 3, acceptedAt := none }],
            messages := [] } 7 "chat00000001" "user00000002" =
        ({ users := ["user00000001", "user00000002"]
           chats := [{ id := "chat00000001",
                       participants := ["user00000001", "user00000002"],
                       status := .pending,
                       initiatedBy := "user00000001",
                       createdAt := 3, acceptedAt := none }].map
             (fun x => if x.id == "chat00000001" then c' else x)
           messages := [] },
         .ok (toChatResponse c')) ∧
      c'.status = .accepted ∧ c'.acceptedAt = some 7 ∧
      c'.id = "chat00000001" ∧
      c'.participants = ["user00000001", "user00000002"] ∧
      c'.initiatedBy = "user00000001" ∧ c'.createdAt = 3 :=
  claim_C9_accept_success_frame _ 7 "chat00000001" "user00000002"
    { id := "chat00000001",
      participants := ["user00000001", "user00000002"],
      status := .pending,
      initiatedBy := "user00000001",
      createdAt := 3, acceptedAt := none }
    (by decide) (by decide) (by decide) (by decide) (by decide) rfl

/-! ### C1 -/

/-- Computation lemma: `createChatRequest` when a chat for the pair already
exists returns it and leaves the store unchanged. -/
theorem createChatRequest_found (db : DB) (now : Nat) (freshId u v : String)
    (c : ChatRec)
    (hv1 : isValidObjectId u = true) (hv2 : isValidObjectId v = true)
    (hne : u ≠ v)
    (he1 : userExists db u = true) (he2 : userExists db v = true)
    (hfc : findChatByPair db u v = some c) :
    createChatRequest db now freshId u v = (db, .ok (toChatResponse c)) := by
  unfold createChatRequest
  rw [hfc]
  simp [hv1, hv2, hne, he1, he2]

/-- Computation lemma: `createChatRequest` when no chat for the pair exists
appends a fresh pending chat initiated by the caller. -/
theorem createChatRequest_create (db : DB) (now : Nat) (freshId u v : String)
    (hv1 : isValidObjectId u = true) (hv2 : isValidObjectId v = true)
    (hne : u ≠ v)
    (he1 : userExists db u = true) (he2 : userExists db v = true)
    (hfc : findChatByPair db u v = none) :
    createChatRequest db now freshId u v =
      ({ users := db.users
         chats := db.chats ++
           [{ id := freshId, participants := [u, v], status := .pending,
              initiatedBy := u, createdAt := now, acceptedAt := none }]
         messages := db.messages },
       .ok (toChatResponse
         { id := freshId, participants := [u, v], status := .pending,
           initiatedBy := u, createdAt := now, acceptedAt := none })) := by
  unfold createChatRequest
  rw [hfc]
  simp [hv1, hv2, hne, he1, he2]

/-- C1: for distinct, existing, well-formed users, if a chat for the
unordered pair already exists (any status) `requestChat` returns it with the
store unchanged; and calling `requestChat` twice — the second time in either
argument order (here the reversed one) — returns the same chat both times,
the second call changing nothing. -/
theorem claim_C1_requestChat_idempotent (db : DB) (now1 now2 : Nat)
    (f1 f2 u1 u2 : String)
    (hv1 : isValidObjectId u1 = true) (hv2 : isValidObjectId u2 = true)
    (hne : u1 ≠ u2) (hm1 : u1 ∈ db.users) (hm2 : u2 ∈ db.users) :
    (∀ c, findChatByPair db u1 u2 = some c →
        createChatRequest db now1 f1 u1 u2 = (db, .ok (toChatResponse c))) ∧
    ∃ r db1, createChatRequest db now1 f1 u1 u2 = (db1, .ok r) ∧
      createChatRequest db1 now2 f2 u2 u1 = (db1, .ok r) := by
  have he1 : userExists db u1 = true := by simp [userExists, hv1, hm1]
  have he2 : userExists db u2 = true := by simp [userExists, hv2, hm2]
  constructor
  · intro c hfc
    exact createChatRequest_found db now1 f1 u1 u2 c hv1 hv2 hne he1 he2 hfc
  · cases hfc : findChatByPair db u1 u2 with
    | some c =>
      refine ⟨toChatResponse c, db, ?_, ?_⟩
      · exact createChatRequest_found db now1 f1 u1 u2 c hv1 hv2 hne he1 he2 hfc
      · exact createChatRequest_found db now2 f2 u2 u1 c hv2 hv1
          (fun h => hne h.symm) he2 he1 ((findChatByPair_comm db u2 u1).trans hfc)
    | none =>
      set newChat : ChatRec :=
        { id := f1, participants := [u1, u2], status := .pending,
          initiatedBy := u1, createdAt := now1, acceptedAt := none } with hnc
      set db1 : DB :=
        { users := db.users, chats := db.chats ++ [newChat],
          messages := db.messages } with hdb1
      refine ⟨toChatResponse newChat, db1, ?_, ?_⟩
      · exact createChatRequest_create db now1 f1 u1 u2 hv1 hv2 hne he1 he2 hfc
      · have he1' : userExists db1 u1 = true := he1
        have he2' : userExists db1 u2 = true := he2
        have hfc1 : findChatByPair db1 u2 u1 = some newChat := by
          unfold findChatByPair at hfc ⊢
          rw [hdb1]
          rw [List.find?_append]
          have hsym : db.chats.find? (fun c => chatHasPair c u2 u1) = none := by
            rw [find?_congr_pred _ _ (fun c => chatHasPair_comm c u2 u1) db.chats]
            exact hfc
          rw [hsym]
          simp [chatHasPair]
        exact createChatRequest_found db1 now2 f2 u2 u1 newChat hv2 hv1
          (fun h => hne h.symm) he2' he1' hfc1

/-- Witness for C1 on a concrete two-user store with no chats yet. -/
theorem claim_C1_witness :
    (∀ c, findChatByPair
          { users := ["user00000001", "user00000002"], chats := [], messages := [] }
          "user00000001" "user00000002" = some c →
        createChatRequest
            { users := ["user00000001", "user00000002"], chats := [], messages := [] }
            5 "chat00000001" "user00000001" "user00000002" =
          ({ users := ["user00000001", "user00000002"], chats := [], messages := [] },
           .ok (toChatResponse c))) ∧
    ∃ r db1, createChatRequest
          { users := ["user00000001", "user00000002"], chats := [], messages := [] }
          5 "chat00000001" "user00000001" "user00000002" = (db1, .ok r) ∧
        createChatRequest db1 6 "chat00000002" "user00000002" "user00000001" =
          (db1, .ok r) :=
  claim_C1_requestChat_idempotent _ 5 6 "chat00000001" "chat00000002"
    "user00000001" "user00000002"
    (by decide) (by decide) (by decide) (by decide) (by decide)

/-! ### C2 -/

/-- Computation lemma: `createMessage` succeeds on an accepted chat for a
participant sender with valid non-empty content (no reply target), appending
the trimmed message to the store. -/
theorem createMessage_success (db : DB) (now : Nat)
    (freshId chatId senderId content : String) (c : ChatRec)
    (hv1 : isValidObjectId chatId = true)
    (hv2 : isValidObjectId senderId = true)
    (hc : findChat db chatId = some c)
    (hp : senderId ∈ c.participants)
    (hs : c.status = .accepted)
    (hne : (trimString content).length ≠ 0)
    (hlen : (trimString content).length ≤ 5000) :
    createMessage db now freshId chatId senderId content none =
      ({ users := db.users
         chats := db.chats
         messages := db.messages ++
           [{ id := freshId, chatId := chatId, senderId := senderId,
              content := trimString content, replyTo := none,
              createdAt := now, readAt := none, deleted := false }] },
       .ok (toMessageResponse
         { id := freshId, chatId := chatId, senderId := senderId,
           content := trimString content, replyTo := none,
           createdAt := now, readAt := none, deleted := false })) := by
  unfold createMessage validateChatParticipants createMessage.saveMessage
  rw [hc]
  have hgt : ¬ (trimString content).length > 5000 := by omega
  simp [hv1, hv2, hp, hs, hne, hgt]

/-- C2: (first conjunct) `createMessage` on an existing chat whose status is
not `accepted`, by a participant sender, fails with `Conflict` and the store
is returned unchanged — no message is created; (second conjunct) after a
successful `acceptChat` on a pending chat by the non-initiator, an
immediately following `createMessage` by a participant with valid non-empty
content succeeds. -/
theorem claim_C2_message_needs_accepted_chat :
    (∀ (db : DB) (now : Nat) (freshId chatId senderId content : String)
       (replyToId : Option String) (c : ChatRec),
      isValidObjectId chatId = true → isValidObjectId senderId = true →
      findChat db chatId = some c → senderId ∈ c.participants →
      c.status ≠ .accepted →
      createMessage db now freshId chatId senderId content replyToId =
        (db, .error (.conflict "Cannot send messages to a chat that is not accepted"))) ∧
    (∀ (db : DB) (now1 now2 : Nat) (freshId chatId userId senderId content : String)
       (c : ChatRec),
      isValidObjectId chatId = true → isValidObjectId userId = true →
      isValidObjectId senderId = true →
      findChat db chatId = some c → c.status = .pending →
      userId ∈ c.participants → c.initiatedBy ≠ userId →
      senderId ∈ c.participants →
      (trimString content).length ≠ 0 → (trimString content).length ≤ 5000 →
      ∃ db1 r, acceptChat db now1 chatId userId = (db1, .ok r) ∧
        ∃ db2 m, createMessage db1 now2 freshId chatId senderId content none =
          (db2, .ok m)) := by
  constructor
  · intro db now freshId chatId senderId content replyToId c hv1 hv2 hc hp hs
    unfold createMessage validateChatParticipants
    rw [hc]
    simp [hv1, hv2, hp, hs]
  · intro db now1 now2 freshId chatId userId senderId content c
      hv1 hv2 hv3 hc hs hpu hni hps hne hlen
    obtain ⟨c', hacc, hst', hat', hid', hparts', hinit', hcreated'⟩ :=
      claim_C9_accept_success_frame db now1 chatId userId c hv1 hv2 hc hpu hni hs
    refine ⟨_, _, hacc, ?_⟩
    have hcid : c.id = chatId := findChat_id_of_some hc
    have hfind1 : findChat
        { users := db.users
          chats := db.chats.map (fun x => if x.id == c.id then c' else x)
          messages := db.messages } chatId = some c' := by
      unfold findChat at hc ⊢
      exact find?_id_map_replace db.chats chatId c c' hc hid'
    have hps' : senderId ∈ c'.participants := by rw [hparts']; exact hps
    refine ⟨_, _, createMessage_success _ now2 freshId chatId senderId content c'
      hv1 hv3 hfind1 hps' hst' hne hlen⟩

/-- Witness for C2 on a concrete pending chat: sending fails with `Conflict`
before acceptance and succeeds right after the non-initiator accepts. -/
theorem claim_C2_witness :
    (createMessage
        { users := ["user00000001", "user00000002"],
          chats := [{ id := "chat00000001",
                      participants := ["user00000001", "user00000002"],
                      status := .pending,
                      initiatedBy := "user00000001",
                      createdAt := 3, acceptedAt := none }],
          messages := [] } 9 "msg000000001" "chat00000001" "user00000001" "hi" none =
      ({ users := ["user00000001", "user00000002"],
         chats := [{ id := "chat00000001",
                     participants := ["user00000001", "user00000002"],
                     status := .pending,
                     initiatedBy := "user00000001",
                     createdAt := 3, acceptedAt := none }],
         messages := [] },
       .error (.conflict "Cannot send messages to a chat that is not accepted"))) ∧
    (∃ db1 r, acceptChat
          { users := ["user00000001", "user00000002"],
            chats := [{ id := "chat00000001",
                        participants := ["user00000001", "user00000002"],
                        status := .pending,
                        initiatedBy := "user00000001",
                        createdAt := 3, acceptedAt := none }],
            messages := [] } 7 "chat00000001" "user00000002" = (db1, .ok r) ∧
        ∃ db2 m, createMessage db1 9 "msg000000001" "chat00000001" "user00000001"
            "hi" none = (db2, .ok m)) := by
  constructor
  · exact claim_C2_message_needs_accepted_chat.1 _ 9 "msg000000001" "chat00000001"
      "user00000001" "hi" none
      { id := "chat00000001",
        participants := ["user00000001", "user00000002"],
        status := .pending,
        initiatedBy := "user00000001",
        createdAt := 3, acceptedAt := none }
      (by decide) (by decide) (by decide) (by decide) (by decide)
  · exact claim_C2_message_needs_accepted_chat.2 _ 7 9 "msg000000001" "chat00000001"
      "user00000002" "user00000001" "hi"
      { id := "chat00000001",
        participants := ["user00000001", "user00000002"],
        status := .pending,
        initiatedBy := "user00000001",
        createdAt := 3, acceptedAt := none }
      (by decide) (by decide) (by decide) (by decide) rfl (by decide) (by decide)
      (by decide) (by decide) (by decide)

/-! ### C7 -/

/-- C7: `deleteMessage` fails with `NotFound` when no message has the given
id, fails with `Forbidden` when the caller is not the sender (store unchanged
in both cases), and for the sender succeeds, returns the owning chat id, and
marks the stored message soft-deleted — so any subsequent read of the chat's
messages (as `getChatMessages` performs over `db.messages`) sees that message
carrying the deletion marker. -/
theorem claim_C7_deleteMessage_rules :
    (∀ (db : DB) (messageId userId : String),
      findMessage db messageId = none →
      deleteMessage db messageId userId =
        (db, .error (.notFound "Message not found"))) ∧
    (∀ (db : DB) (messageId userId : String) (m : MessageRec),
      findMessage db messageId = some m → m.senderId ≠ userId →
      deleteMessage db messageId userId =
        (db, .error (.forbidden "Only the sender can delete this message"))) ∧
    (∀ (db : DB) (messageId : String) (m : MessageRec),
      findMessage db messageId = some m →
      deleteMessage db messageId m.senderId =
        ({ users := db.users
           chats := db.chats
           messages := db.messages.map
             (fun x => if x.id == messageId then { x with deleted := true } else x) },
         .ok { success := true, chatId := m.chatId }) ∧
      ∀ x ∈ db.messages.map
          (fun x => if x.id == messageId then { x with deleted := true } else x),
        x.id = messageId → x.deleted = true) := by
  refine ⟨?_, ?_, ?_⟩
  · intro db messageId userId hf
    unfold deleteMessage
    rw [hf]
  · intro db messageId userId m hf hs
    unfold deleteMessage
    rw [hf]
    simp [bne_iff_ne, hs]
  · intro db messageId m hf
    constructor
    · unfold deleteMessage
      rw [hf]
      simp
    · intro y hy hid
      rcases List.mem_map.mp hy with ⟨x, _, rfl⟩
      by_cases hx : x.id = messageId
      · simp [hx]
      · have hb : (x.id == messageId) = false := by simpa using hx
        rw [hb] at hid ⊢
        simp at hid ⊢
        exact absurd hid hx

/-- Witness for C7 on a concrete store: unknown message id, non-sender
caller, and a sender-initiated delete that marks the record. -/
theorem claim_C7_witness :
    (deleteMessage
        { users := [], chats := [],
          messages := [{ id := "msg000000001", chatId := "chat00000001",
                         senderId := "user00000001", content := "a",
                         replyTo := none, createdAt := 1, readAt := none,
                         deleted := false }] } "msg000000009" "user00000001" =
      ({ users := [], chats := [],
         messages := [{ id := "msg000000001", chatId := "chat00000001",
                        senderId := "user00000001", content := "a",
                        replyTo := none, createdAt := 1, readAt := none,
                        deleted := false }] },
       .error (.notFound "Message not found"))) ∧
    (deleteMessage
        { users := [], chats := [],
          messages := [{ id := "msg000000001", chatId := "chat00000001",
                         senderId := "user00000001", content := "a",
                         replyTo := none, createdAt := 1, readAt := none,
                         deleted := false }] } "msg000000001" "user00000002" =
      ({ users := [], chats := [],
         messages := [{ id := "msg000000001", chatId := "chat00000001",
                        senderId := "user00000001", content := "a",
                        replyTo := none, createdAt := 1, readAt := none,
                        deleted := false }] },
       .error (.forbidden "Only the sender can delete this message"))) ∧
    deleteMessage
        { users := [], chats := [],
          messages := [{ id := "msg000000001", chatId := "chat00000001",
                         senderId := "user00000001", content := "a",
                         replyTo := none, createdAt := 1, readAt := none,
                         deleted := false }] } "msg000000001" "user00000001" =
      ({ users := [], chats := [],
         messages := [{ id := "msg000000001", chatId := "chat00000001",
                        senderId := "user00000001", content := "a",
                        replyTo := none, createdAt := 1, readAt := none,
                        deleted := false }].map
           (fun x => if x.id == "msg000000001" then { x with deleted := true } else x) },
       .ok { success := true, chatId := "chat00000001" }) := by
  refine ⟨?_, ?_, ?_⟩
  · exact claim_C7_deleteMessage_rules.1 _ "msg000000009" "user00000001" (by decide)
  · exact claim_C7_deleteMessage_rules.2.1 _ "msg000000001" "user00000002"
      { id := "msg000000001", chatId := "chat00000001",
        senderId := "user00000001", content := "a", replyTo := none,
        createdAt := 1, readAt := none, deleted := false }
      (by decide) (by decide)
  · exact (claim_C7_deleteMessage_rules.2.2 _ "msg000000001"
      { id := "msg000000001", chatId := "chat00000001",
        senderId := "user00000001", content := "a", replyTo := none,
        createdAt := 1, readAt := none, deleted := false }
      (by decide)).1

/-! ### C8 -/

/-- C8: when a `replyToId` is supplied, `createMessage` fails with `NotFound`
(store unchanged) unless a message with that id exists in the same chat, and
when such a message exists the created record stores the reply-to reference. -/
theorem claim_C8_replyTo_checked :
    (∀ (db : DB) (now : Nat) (freshId chatId senderId content rid : String)
       (c : ChatRec),
      isValidObjectId chatId = true → isValidObjectId senderId = true →
      findChat db chatId = some c → senderId ∈ c.participants →
      c.status = .accepted →
      db.messages.find? (fun m => m.id == rid && m.chatId == chatId) = none →
      createMessage db now freshId chatId senderId content (some rid) =
        (db, .error (.notFound "Reply target message not found in this chat"))) ∧
    (∀ (db : DB) (now : Nat) (freshId chatId senderId content rid : String)
       (c : ChatRec) (mr : MessageRec),
      isValidObjectId chatId = true → isValidObjectId senderId = true →
      findChat db chatId = some c → senderId ∈ c.participants →
      c.status = .accepted →
      (trimString content).length ≠ 0 → (trimString content).length ≤ 5000 →
      db.messages.find? (fun m => m.id == rid && m.chatId == chatId) = some mr →
      createMessage db now freshId chatId senderId content (some rid) =
        ({ users := db.users
           chats := db.chats
           messages := db.messages ++
             [{ id := freshId, chatId := chatId, senderId := senderId,
                content := trimString content, replyTo := some rid,
                createdAt := now, readAt := none, deleted := false }] },
         .ok (toMessageResponse
           { id := freshId, chatId := chatId, senderId := senderId,
             content := trimString content, replyTo := some rid,
             createdAt := now, readAt := none, deleted := false }))) := by
  constructor
  · intro db now freshId chatId senderId content rid c hv1 hv2 hc hp hs hr
    unfold createMessage validateChatParticipants
    rw [hc]
    simp [hv1, hv2, hp, hs, hr]
  · intro db now freshId chatId senderId content rid c mr hv1 hv2 hc hp hs hne hlen hr
    unfold createMessage validateChatParticipants createMessage.saveMessage
    rw [hc]
    have hgt : ¬ (trimString content).length > 5000 := by omega
    simp [hv1, hv2, hp, hs, hne, hgt, hr]

/-- Witness for C8 on a concrete accepted chat: a dangling `replyToId` is
refused with `NotFound`, and replying to the stored message records the
reference. -/
theorem claim_C8_witness :
    (createMessage
        { users := ["user00000001", "user00000002"],
          chats := [{ id := "chat00000001",
                      participants := ["user00000001", "user00000002"],
                      status := .accepted,
                      initiatedBy := "user00000001",
                      createdAt := 0, acceptedAt := some 1 }],
          messages := [{ id := "msg000000001", chatId := "chat00000001",
                         senderId := "user00000001", content := "a",
                         replyTo := none, createdAt := 1, readAt := none,
                         deleted := false }] }
        9 "msg000000002" "chat00000001" "user00000002" "hi" (some "msg000000009") =
      ({ users := ["user00000001", "user00000002"],
         chats := [{ id := "chat00000001",
                     participants := ["user00000001", "user00000002"],
                     status := .accepted,
                     initiatedBy := "user00000001",
                     createdAt := 0, acceptedAt := some 1 }],
         messages := [{ id := "msg000000001", chatId := "chat00000001",
                        senderId := "user00000001", content := "a",
                        replyTo := none, createdAt := 1, readAt := none,
                        deleted := false }] },
       .error (.notFound "Reply target message not found in this chat"))) ∧
    createMessage
        { users := ["user00000001", "user00000002"],
          chats := [{ id := "chat00000001",
                      participants := ["user00000001", "user00000002"],
                      status := .accepted,
                      initiatedBy := "user00000001",
                      createdAt := 0, acceptedAt := some 1 }],
          messages := [{ id := "msg000000001", chatId := "chat00000001",
                         senderId := "user00000001", content := "a",
                         replyTo := none, createdAt := 1, readAt := none,
                         deleted := false }] }
        9 "msg000000002" "chat00000001" "user00000002" "hi" (some "msg000000001") =
      ({ users := ["user00000001", "user00000002"]
         chats := [{ id := "chat00000001",
                     participants := ["user00000001", "user00000002"],
                     status := .accepted,
                     initiatedBy := "user00000001",
                     createdAt := 0, acceptedAt := some 1 }]
         messages := [{ id := "msg000000001", chatId := "chat00000001",
                        senderId := "user00000001", content := "a",
                        replyTo := none, createdAt := 1, readAt := none,
                        deleted := false }] ++
           [{ id := "msg000000002", chatId := "chat00000001",
              senderId := "user00000002", content := trimString "hi",
              replyTo := some "msg000000001", createdAt := 9, readAt := none,
              deleted := false }] },
       .ok (toMessageResponse
         { id := "msg000000002", chatId := "chat00000001",
           senderId := "user00000002", content := trimString "hi",
           replyTo := some "msg000000001", createdAt := 9, readAt := none,
           deleted := false })) := by
  constructor
  · exact claim_C8_replyTo_checked.1 _ 9 "msg000000002" "chat00000001"
      "user00000002" "hi" "msg000000009"
      { id := "chat00000001",
        participants := ["user00000001", "user00000002"],
        status := .accepted, initiatedBy := "user00000001",
        createdAt := 0, acceptedAt := some 1 }
      (by decide) (by decide) (by decide) (by decide) rfl (by decide)
  · exact claim_C8_replyTo_checked.2 _ 9 "msg000000002" "chat00000001"
      "user00000002" "hi" "msg000000001"
      { id := "chat00000001",
        participants := ["user00000001", "user00000002"],
        status := .accepted, initiatedBy := "user00000001",
        createdAt := 0, acceptedAt := some 1 }
      { id := "msg000000001", chatId := "chat00000001",
        senderId := "user00000001", content := "a", replyTo := none,
        createdAt := 1, readAt := none, deleted := false }
      (by decide) (by decide) (by decide) (by decide) rfl (by decide) (by decide)
      (by decide)

/-! ### C6 -/

/-- A well-formed id is not the empty string (so the handler's falsy-field
guard passes). -/
theorem validObjectId_ne_empty {s : String} (h : isValidObjectId s = true) :
    (s == "") = false := by
  cases hb : (s == "") with
  | false => rfl
  | true =>
    have hs : s = "" := by simpa using hb
    subst hs
    exact absurd h (by decide)

/-- A string whose trimmed form is non-empty is itself non-empty. -/
theorem ne_empty_of_trim_ne_zero {s : String}
    (h : (trimString s).length ≠ 0) : (s == "") = false := by
  cases hb : (s == "") with
  | false => rfl
  | true =>
    have hs : s = "" := by simpa using hb
    subst hs
    exact absurd (by decide : (trimString "").length = 0) h

/-- C6: a successful send into a chat where exactly one of the two
participants is present in the online-users map pushes exactly one
`MESSAGE_RECEIVED` event, addressed to that participant's registered socket;
the offline participant is skipped with no further effect, and the store
after the handler is exactly the store `createMessage` produced (delivery
mutates nothing). -/
theorem claim_C6_one_online_one_event (db : DB) (now : Nat)
    (freshId senderSocket chatId senderId content a b s : String)
    (online : List (String × String)) (c : ChatRec)
    (hv1 : isValidObjectId chatId = true)
    (hv2 : isValidObjectId senderId = true)
    (hc : findChat db chatId = some c)
    (hps : senderId ∈ c.participants)
    (hst : c.status = .accepted)
    (hparts : c.participants = [a, b])
    (hne : (trimString content).length ≠ 0)
    (hlen : (trimString content).length ≤ 5000)
    (honline : (lookupOnline online a = some s ∧ lookupOnline online b = none) ∨
               (lookupOnline online a = none ∧ lookupOnline online b = some s)) :
    ∃ db1 m,
      createMessage db now freshId chatId senderId content none = (db1, .ok m) ∧
      handleMessageSend db now freshId senderSocket
          { chatId := chatId, content := content, senderId := senderId,
            replyToId := none } online =
        (db1, [⟨s, .messageReceived m chatId⟩]) := by
  have hcm := createMessage_success db now freshId chatId senderId content c
    hv1 hv2 hc hps hst hne hlen
  refine ⟨_, _, hcm, ?_⟩
  unfold handleMessageSend
  rw [show validateChatParticipants db chatId senderId = .ok c from ?_]
  · simp only [validObjectId_ne_empty hv1, validObjectId_ne_empty hv2,
      ne_empty_of_trim_ne_zero hne, Bool.or_self, Bool.false_eq_true, if_false,
      Bool.false_or, Bool.or_false]
    rw [hst]
    simp only [bne_self_eq_false, Bool.false_eq_true, if_false]
    rw [hcm, hparts]
    rcases honline with ⟨ha, hb⟩ | ⟨ha, hb⟩ <;>
      simp [List.filterMap, ha, hb]
  · unfold validateChatParticipants
    rw [hc]
    simp [hv1, hv2, hps]

/-- Witness for C6: a concrete accepted chat with only the second participant
online receives exactly one event on that participant's socket. -/
theorem claim_C6_witness :
    ∃ db1 m,
      createMessage
          { users := ["user00000001", "user00000002"],
            chats := [{ id := "chat00000001",
                        participants := ["user00000001", "user00000002"],
                        status := .accepted,
                        initiatedBy := "user00000001",
                        createdAt := 0, acceptedAt := some 1 }],
            messages := [] } 9 "msg000000001" "chat00000001" "user00000001"
          "hi" none = (db1, .ok m) ∧
      handleMessageSend
          { users := ["user00000001", "user00000002"],
            chats := [{ id := "chat00000001",
                        participants := ["user00000001", "user00000002"],
                        status := .accepted,
                        initiatedBy := "user00000001",
                        createdAt := 0, acceptedAt := some 1 }],
            messages := [] } 9 "msg000000001" "sockSender"
          { chatId := "chat00000001", content := "hi",
            senderId := "user00000001", replyToId := none }
          [("user00000002", "sockB")] =
        (db1, [⟨"sockB", .messageReceived m "chat00000001"⟩]) :=
  claim_C6_one_online_one_event _ 9 "msg000000001" "sockSender" "chat00000001"
    "user00000001" "hi" "user00000001" "user00000002" "sockB"
    [("user00000002", "sockB")]
    { id := "chat00000001",
      participants := ["user00000001", "user00000002"],
      status := .accepted, initiatedBy := "user00000001",
      createdAt := 0, acceptedAt := some 1 }
    (by decide) (by decide) (by decide) (by decide) rfl rfl (by decide) (by decide)
    (Or.inr ⟨by decide, by decide⟩)

/-! ### C5 lemmas: sorting -/

theorem mem_insertByTime (m y : MessageRec) (l : List MessageRec) :
    y ∈ insertByTime m l ↔ y = m ∨ y ∈ l := by
  induction l with
  | nil => simp [insertByTime]
  | cons x xs ih =>
    by_cases h : m.createdAt ≤ x.createdAt
    · simp [insertByTime, h]
    · simp [insertByTime, h, ih]
      tauto

theorem pairwise_insertByTime (m : MessageRec) (l : List MessageRec)
    (h : l.Pairwise (fun a b => a.createdAt ≤ b.createdAt)) :
    (insertByTime m l).Pairwise (fun a b => a.createdAt ≤ b.createdAt) := by
  induction l with
  | nil => simp [insertByTime]
  | cons x xs ih =>
    rcases List.pairwise_cons.mp h with ⟨hx, hxs⟩
    by_cases hle : m.createdAt ≤ x.createdAt
    · rw [insertByTime, if_pos hle]
      refine List.pairwise_cons.mpr ⟨?_, h⟩
      intro y hy
      rcases List.mem_cons.mp hy with rfl | hy2
      · exact hle
      · exact hle.trans (hx y hy2)
    · rw [insertByTime, if_neg hle]
      refine List.pairwise_cons.mpr ⟨?_, ih hxs⟩
      intro y hy
      rcases (mem_insertByTime m y xs).mp hy with rfl | hy
      · omega
      · exact hx y hy

theorem pairwise_sortByTime (l : List MessageRec) :
    (sortByTime l).Pairwise (fun a b => a.createdAt ≤ b.createdAt) := by
  induction l with
  | nil => simp [sortByTime]
  | cons x xs ih => exact pairwise_insertByTime x (sortByTime xs) ih

theorem length_insertByTime (m : MessageRec) (l : List MessageRec) :
    (insertByTime m l).length = l.length + 1 := by
  induction l with
  | nil => rfl
  | cons x xs ih =>
    by_cases h : m.createdAt ≤ x.createdAt
    · simp [insertByTime, h]
    · simp [insertByTime, h, ih]

theorem length_sortByTime (l : List MessageRec) :
    (sortByTime l).length = l.length := by
  induction l with
  | nil => rfl
  | cons x xs ih => simp [sortByTime, length_insertByTime, ih]

/-! ### C5 lemmas: ceiling division and chunking -/

theorem le_ceilDivNat_mul (t L : Nat) (hL : 0 < L) :
    t ≤ ceilDivNat t L * L := by
  unfold ceilDivNat
  rcases Nat.eq_zero_or_pos t with ht | ht
  · simp [ht]
  · have he : t + L - 1 = (t - 1) + L := by omega
    rw [he, Nat.add_div_right _ hL]
    have h3 : t - 1 < ((t - 1) / L + 1) * L :=
      (Nat.div_lt_iff_lt_mul hL).mp (Nat.lt_succ_self _)
    omega

theorem ceilDivNat_le (t L k : Nat) (hL : 0 < L) (h : t ≤ L * k) :
    ceilDivNat t L ≤ k := by
  unfold ceilDivNat
  have hE : (k + 1) * L = L * k + L := by ring
  have hlt : t + L - 1 < (k + 1) * L := by omega
  exact Nat.lt_succ_iff.mp ((Nat.div_lt_iff_lt_mul hL).mpr hlt)

/-- Splitting a list into `N` consecutive chunks of size `L` and flattening
them in order reproduces the list, provided the chunks cover it. -/
theorem flatten_range_chunks {α : Type} (L : Nat) :
    ∀ (N : Nat) (r : List α), r.length ≤ N * L →
      ((List.range N).map (fun i => (r.drop (i * L)).take L)).flatten = r := by
  intro N
  induction N with
  | zero =>
    intro r hr
    have : r = [] := List.eq_nil_of_length_eq_zero (by omega)
    simp [this]
  | succ n ih =>
    intro r hr
    rw [List.range_succ_eq_map, List.map_cons, List.map_map, List.flatten_cons]
    have hcomp :
        ((fun i => (r.drop (i * L)).take L) ∘ Nat.succ) =
          (fun i => ((r.drop L).drop (i * L)).take L) := by
      funext i
      simp only [Function.comp]
      rw [List.drop_drop, Nat.succ_mul, Nat.add_comm (i * L) L]
    rw [hcomp]
    have hlen : (r.drop L).length ≤ n * L := by
      rw [List.length_drop]
      have : (n + 1) * L = n * L + L := by ring
      omega
    rw [ih (r.drop L) hlen]
    simp

/-! ### C5 lemmas: effective page and limit -/

theorem effPage_pos (q : PaginationQuery) : 1 ≤ effPage q := by
  unfold effPage
  cases q.page with
  | none => simp
  | some p =>
    by_cases h : p = 0
    · simp [h]
    · simp only [h, if_false]
      omega

theorem effPage_none {q : PaginationQuery} (h : q.page = none) :
    effPage q = 1 := by
  unfold effPage
  rw [h]
  decide

theorem effPage_some (q : PaginationQuery) (p : Int) (h : q.page = some p) :
    effPage q = max 1 p.toNat := by
  unfold effPage
  rw [h]
  by_cases hp : p = 0
  · simp [hp]
  · simp only [hp, if_false]
    omega

theorem effLimit_pos (q : PaginationQuery) : 1 ≤ effLimit q := by
  unfold effLimit
  cases q.limit with
  | none => simp
  | some l =>
    by_cases h : l = 0
    · simp [h]
    · simp only [h, if_false]
      omega

theorem effLimit_le_100 (q : PaginationQuery) : effLimit q ≤ 100 := by
  unfold effLimit
  cases q.limit with
  | none => simp
  | some l =>
    by_cases h : l = 0
    · simp [h]
    · simp only [h, if_false]
      omega

theorem effLimit_none {q : PaginationQuery} (h : q.limit = none) :
    effLimit q = 50 := by
  unfold effLimit
  rw [h]
  decide

theorem effLimit_some (q : PaginationQuery) (l : Int) (h : q.limit = some l)
    (h1 : 1 ≤ l) (h2 : l ≤ 100) : effLimit q = l.toNat := by
  unfold effLimit
  rw [h]
  have hl : ¬ l = 0 := by omega
  simp [hl]
  omega

/-- Computation lemma: `getChatMessages` on an existing chat succeeds and
returns the reversed newest-first page together with the pagination
metadata. -/
theorem getChatMessages_ok (db : DB) (chatId : String) (q : PaginationQuery)
    (c : ChatRec) (hv : isValidObjectId chatId = true)
    (hc : findChat db chatId = some c) :
    getChatMessages db chatId q =
      (db, .ok
        { data := ((((sortByTime (db.messages.filter (fun m => m.chatId == chatId))).reverse.drop
              ((effPage q - 1) * effLimit q)).take (effLimit q)).map toMessageResponse).reverse
          page := effPage q
          limit := effLimit q
          total := (db.messages.filter (fun m => m.chatId == chatId)).length
          totalPages := ceilDivNat
            (db.messages.filter (fun m => m.chatId == chatId)).length (effLimit q) }) := by
  unfold getChatMessages
  rw [hc]
  simp [hv]

/-- Computation lemma: the data of page `i + 1` at a limit in `[1, 100]` is
the `(i+1)`-th newest-first chunk, reversed to chronological order. -/
theorem pageData_eq (db : DB) (chatId : String) (c : ChatRec)
    (hv : isValidObjectId chatId = true) (hc : findChat db chatId = some c)
    (i L : Nat) (hL1 : 1 ≤ L) (hL2 : L ≤ 100) :
    pageData db chatId (i + 1) L =
      ((((sortByTime (db.messages.filter (fun m => m.chatId == chatId))).reverse.drop
          (i * L)).take L).map toMessageResponse).reverse := by
  unfold pageData
  rw [getChatMessages_ok db chatId _ c hv hc]
  have hp : effPage { page := some ((i + 1 : Nat) : Int), limit := some ((L : Nat) : Int) } = i + 1 := by
    rw [effPage_some _ _ rfl]
    omega
  have hl : effLimit { page := some ((i + 1 : Nat) : Int), limit := some ((L : Nat) : Int) } = L := by
    rw [effLimit_some _ _ rfl (by omega) (by omega)]
    omega
  dsimp only
  rw [hp, hl]
  simp

/-- Any page of `getChatMessages` data is chronologically sorted, because it
is the reverse of a contiguous slice of the reversed sorted list. -/
theorem pairwise_page_of_sorted (l : List MessageRec) (sk lim : Nat)
    (hl : l.Pairwise (fun a b => a.createdAt ≤ b.createdAt)) :
    ((((l.reverse.drop sk).take lim).map toMessageResponse).reverse).Pairwise
      (fun a b => a.createdAt ≤ b.createdAt) := by
  have hsub : ((l.reverse.drop sk).take lim).reverse.Sublist l := by
    have h1 : ((l.reverse.drop sk).take lim).Sublist l.reverse :=
      (List.take_sublist _ _).trans (List.drop_sublist _ _)
    have h2 := h1.reverse
    rwa [List.reverse_reverse] at h2
  have hpw := List.Pairwise.sublist hsub hl
  rw [← List.map_reverse]
  exact List.pairwise_map.mpr hpw

/-! ### C5 -/

/-- C5 (amended): for every existing chat, `getChatMessages` succeeds with
effective page `max(1, given page, default 1)` and effective limit the given
limit clamped to `[1,100]` with default 50; every page's data is in
chronological (non-decreasing creation time) order; `totalPages` is the
ceiling of `total / limit` (it is the least `k` with `limit * k ≥ total`);
and concatenating the pages in reverse page order `N..1` — page 1 being the
newest — reproduces the chat's full chronological message history with no
duplicates and no gaps. -/
theorem claim_C5_pagination_amended (db : DB) (chatId : String) (c : ChatRec)
    (hv : isValidObjectId chatId = true)
    (hc : findChat db chatId = some c) :
    (∀ q : PaginationQuery, ∃ res : Paginated MessageResponse,
      getChatMessages db chatId q = (db, .ok res) ∧
      1 ≤ res.page ∧ (q.page = none → res.page = 1) ∧
      (∀ p, q.page = some p → res.page = max 1 p.toNat) ∧
      1 ≤ res.limit ∧ res.limit ≤ 100 ∧ (q.limit = none → res.limit = 50) ∧
      (∀ l, q.limit = some l → 1 ≤ l → l ≤ 100 → res.limit = l.toNat) ∧
      res.total = (db.messages.filter (fun m => m.chatId == chatId)).length ∧
      res.totalPages = ceilDivNat res.total res.limit ∧
      res.total ≤ res.limit * res.totalPages ∧
      (∀ k, res.total ≤ res.limit * k → res.totalPages ≤ k) ∧
      res.data.Pairwise (fun a b => a.createdAt ≤ b.createdAt)) ∧
    (∀ L, 1 ≤ L → L ≤ 100 →
      ((List.range (ceilDivNat
            (db.messages.filter (fun m => m.chatId == chatId)).length L)).map
          (fun i => pageData db chatId (i + 1) L)).reverse.flatten =
        (sortByTime (db.messages.filter (fun m => m.chatId == chatId))).map
          toMessageResponse) := by
  constructor
  · intro q
    refine ⟨_, getChatMessages_ok db chatId q c hv hc, ?_, ?_, ?_, ?_, ?_, ?_, ?_,
      rfl, rfl, ?_, ?_, ?_⟩
    · exact effPage_pos q
    · intro h; exact effPage_none h
    · intro p h; exact effPage_some q p h
    · exact effLimit_pos q
    · exact effLimit_le_100 q
    · intro h; exact effLimit_none h
    · intro l h h1 h2; exact effLimit_some q l h h1 h2
    · dsimp only
      rw [Nat.mul_comm]
      exact le_ceilDivNat_mul _ _ (effLimit_pos q)
    · intro k hk
      dsimp only at hk ⊢
      exact ceilDivNat_le _ _ k (effLimit_pos q) hk
    · exact pairwise_page_of_sorted _ _ _ (pairwise_sortByTime _)
  · intro L hL1 hL2
    have hmapeq : (List.range (ceilDivNat
          (db.messages.filter (fun m => m.chatId == chatId)).length L)).map
        (fun i => pageData db chatId (i + 1) L) =
      (List.range (ceilDivNat
          (db.messages.filter (fun m => m.chatId == chatId)).length L)).map
        (fun i => ((((sortByTime
            (db.messages.filter (fun m => m.chatId == chatId))).reverse.drop
            (i * L)).take L).map toMessageResponse).reverse) :=
      List.map_congr_left (fun i _ => pageData_eq db chatId c hv hc i L hL1 hL2)
    rw [hmapeq]
    have hrlen : (sortByTime
        (db.messages.filter (fun m => m.chatId == chatId))).reverse.length ≤
        ceilDivNat (db.messages.filter (fun m => m.chatId == chatId)).length L * L := by
      rw [List.length_reverse, length_sortByTime]
      exact le_ceilDivNat_mul _ L (by omega)
    have hflat := flatten_range_chunks L
      (ceilDivNat (db.messages.filter (fun m => m.chatId == chatId)).length L)
      (sortByTime (db.messages.filter (fun m => m.chatId == chatId))).reverse hrlen
    have hcomp1 : (List.range (ceilDivNat
          (db.messages.filter (fun m => m.chatId == chatId)).length L)).map
        (fun i => ((((sortByTime
            (db.messages.filter (fun m => m.chatId == chatId))).reverse.drop
            (i * L)).take L).map toMessageResponse).reverse) =
      (((List.range (ceilDivNat
          (db.messages.filter (fun m => m.chatId == chatId)).length L)).map
        (fun i => ((sortByTime
            (db.messages.filter (fun m => m.chatId == chatId))).reverse.drop
            (i * L)).take L)).map
          (List.map toMessageResponse)).map List.reverse := by
      rw [List.map_map, List.map_map]
      rfl
    rw [hcomp1, ← List.reverse_flatten, ← List.map_flatten, hflat,
      ← List.map_reverse, List.reverse_reverse]

/-- Counterexample for C5 as stated: with two messages (creation times 1 and
2) and limit 1, concatenating pages 1..N in increasing page order yields the
newest message first — not the chronological history. -/
theorem claim_C5_counterexample :
    ¬ (((List.range 2).map
          (fun i => pageData dbTwoMessages "chat00000001" (i + 1) 1)).flatten =
        (sortByTime (dbTwoMessages.messages.filter
            (fun m => m.chatId == "chat00000001"))).map toMessageResponse) := by
  decide

/-- Witness for C5 (amended) on the same concrete two-message chat. -/
theorem claim_C5_witness :
    (∀ q : PaginationQuery, ∃ res : Paginated MessageResponse,
      getChatMessages dbTwoMessages "chat00000001" q = (dbTwoMessages, .ok res) ∧
      1 ≤ res.page ∧ (q.page = none → res.page = 1) ∧
      (∀ p, q.page = some p → res.page = max 1 p.toNat) ∧
      1 ≤ res.limit ∧ res.limit ≤ 100 ∧ (q.limit = none → res.limit = 50) ∧
      (∀ l, q.limit = some l → 1 ≤ l → l ≤ 100 → res.limit = l.toNat) ∧
      res.total = (dbTwoMessages.messages.filter
          (fun m => m.chatId == "chat00000001")).length ∧
      res.totalPages = ceilDivNat res.total res.limit ∧
      res.total ≤ res.limit * res.totalPages ∧
      (∀ k, res.total ≤ res.limit * k → res.totalPages ≤ k) ∧
      res.data.Pairwise (fun a b => a.createdAt ≤ b.createdAt)) ∧
    (∀ L, 1 ≤ L → L ≤ 100 →
      ((List.range (ceilDivNat
            (dbTwoMessages.messages.filter
              (fun m => m.chatId == "chat00000001")).length L)).map
          (fun i => pageData dbTwoMessages "chat00000001" (i + 1) L)).reverse.flatten =
        (sortByTime (dbTwoMessages.messages.filter
            (fun m => m.chatId == "chat00000001"))).map toMessageResponse) :=
  claim_C5_pagination_amended dbTwoMessages "chat00000001"
    { id := "chat00000001",
      participants := ["user00000001", "user00000002"],
      status := .accepted, initiatedBy := "user00000001",
      createdAt := 0, acceptedAt := some 1 }
    (by decide) (by decide)
